import Mathlib

set_option maxRecDepth 8000

/-!
# Verification model of the ESP8266 SNMP thermometer firmware

A shallow embedding of `snmp_thermometer.ino`:

* the sensor scheduler (`processSensors`, lines 482-531, and `initSensors`,
  lines 431-479), modelled as a step function on an explicit state record,
  with the temperature returned by the Dallas driver for the tick supplied
  as an input;
* the MIB object tree (`initMibTree`, lines 297-339, and the accessor
  callbacks `getTemperature` / `getSensorAddress`, lines 351-370);
* the EEPROM configuration record logic (`getConfig`, lines 535-572);
* the HTTP line readers and their idle-timeout tests (`httpWebServer`,
  lines 827-891, and `httpStatusGetRequest`, lines 1006-1056);
* the configuration-page parameter parsing and dispatch
  (`httpParseParam` / `httpSaveConfiguration` / `httpHandleGetRequest`,
  lines 728-824).

C strings are modelled as `List Char`, C `int` as `Int` or `Nat` where the
value is provably non-negative, and the `float` returned by
`DallasTemperature::getTempC` as `ℚ`.
-/

/-! ## Compile-time constants (lines 36-76 of the source) -/

/-- `SENSOR_TICKS` (line 40): scheduling cycle length in ticks. -/
def SENSOR_TICKS : Nat := 50

/-- `LED_TICKS` (line 43): how long the activity LED stays on. -/
def LED_TICKS : Int := 2

/-- `MAX_SENSORS` (line 66): capacity of the sensor table. -/
def MAX_SENSORS : Nat := 4

/-- `DEVICE_DISCONNECTED_C` from the DallasTemperature library: the sentinel
returned by `getTempC` when the sensor cannot be read (-127 degrees C). -/
def DEVICE_DISCONNECTED_C : ℚ := -127

/-- `EEPROM_VALID` (line 76): sentinel marking a valid EEPROM record. -/
def EEPROM_VALID : Nat := 0x2367

/-- `DEFAULT_SSID` (line 72). -/
def DEFAULT_SSID : List Char := "ballacurmudgeon".toList

/-- `DEFAULT_PSK` (line 73). -/
def DEFAULT_PSK : List Char := "scaramanga".toList

/-- `RO_COMMUNITY` (line 58). -/
def RO_COMMUNITY : List Char := "public".toList

/-! ## Sensor scheduler (lines 137-154, 431-531) -/

/-- The C cast `(int)q` applied to a rational: truncation toward zero. -/
def cTrunc (q : ℚ) : ℤ :=
  q.num.sign * ((q.num.natAbs / q.den : ℕ) : ℤ)

/-- The mutable globals touched by the sensor scheduler (lines 137-154),
together with ghost event logs used only to state properties:
`reads` records each sensor index for which a read was issued,
`succReads` records each sensor index whose read succeeded and was stored,
`ledOnCount` counts invocations of `ledOn`, and the two diagnostic counters
count the `Serial` error prints in `processSensors`. -/
structure SchedState where
  temps : List Int
  numSensors : Nat
  currentSensor : Nat
  sensorTicks : Int
  ledTicks : Int
  ledOnCount : Nat
  reads : List Nat
  succReads : List Nat
  errDiags : Nat
  noSensorDiags : Nat
deriving DecidableEq

/-- `processSensors` (lines 482-531) for one tick, with `t` the value
`dallasSensors.getTempC(sensors[currentSensor].addr)` would return at the
cycle boundary.  Mirrors the source exactly: decrement the countdown; on
expiry reset it, turn the LED on (`ledOn(LED_TICKS)`, line 490), bail out
with a diagnostic if there are no sensors (lines 492-496), otherwise read
the current sensor, store `(int)(t * 10)` only on success (lines 509-521),
and advance the round-robin cursor with wrap-around (lines 524-529). -/
def processSensors (t : ℚ) (s : SchedState) : SchedState :=
  let st := s.sensorTicks - 1
  if st = 0 then
    let s1 : SchedState :=
      { s with sensorTicks := (SENSOR_TICKS : Int), ledTicks := LED_TICKS,
               ledOnCount := s.ledOnCount + 1 }
    if s1.numSensors = 0 then
      { s1 with noSensorDiags := s1.noSensorDiags + 1 }
    else
      let s2 : SchedState :=
        { s1 with
            reads := s1.reads ++ [s1.currentSensor],
            temps :=
              if t = DEVICE_DISCONNECTED_C then s1.temps
              else s1.temps.set s1.currentSensor (cTrunc (t * 10)),
            succReads :=
              if t = DEVICE_DISCONNECTED_C then s1.succReads
              else s1.succReads ++ [s1.currentSensor],
            errDiags :=
              if t = DEVICE_DISCONNECTED_C then s1.errDiags + 1
              else s1.errDiags }
      let cur := s2.currentSensor + 1
      if cur = s2.numSensors then { s2 with currentSensor := 0 }
      else { s2 with currentSensor := cur }
  else
    { s with sensorTicks := st }

/-- The scheduler state right after `setup()` ran `initSensors`
(lines 431-479) with `deviceCount` devices found on the bus: countdown full,
cursor at 0, sensor count clamped to `MAX_SENSORS` (lines 452-458), and the
temperature slots still holding their compiled-in initialisers
(lines 138-144). -/
def initSensors (deviceCount : Nat) : SchedState :=
  { temps := [1111, 2222, 3333, 4444]
    numSensors := min deviceCount MAX_SENSORS
    currentSensor := 0
    sensorTicks := (SENSOR_TICKS : Int)
    ledTicks := 0
    ledOnCount := 0
    reads := []
    succReads := []
    errDiags := 0
    noSensorDiags := 0 }

/-- Run `n` scheduler ticks; the driver's reading at tick `i` is `f i`. -/
def run (f : Nat → ℚ) : Nat → SchedState → SchedState
  | 0, s => s
  | n + 1, s => processSensors (f n) (run f n s)

/-- The control components of the scheduler state: everything except the
fields whose value depends on the driver readings. -/
structure Ctl where
  sensorTicks : Int
  currentSensor : Nat
  numSensors : Nat
  reads : List Nat
deriving DecidableEq

/-- Projection of the scheduler state onto its control components. -/
def ctl (s : SchedState) : Ctl :=
  ⟨s.sensorTicks, s.currentSensor, s.numSensors, s.reads⟩

/-- The action of `processSensors` on the control components.  It does not
depend on the driver reading: which sensor is read next and when is decided
by the countdown and cursor alone. -/
def stepCtl (c : Ctl) : Ctl :=
  let st := c.sensorTicks - 1
  if st = 0 then
    if c.numSensors = 0 then { c with sensorTicks := (SENSOR_TICKS : Int) }
    else
      let cur := c.currentSensor + 1
      { sensorTicks := (SENSOR_TICKS : Int)
        currentSensor := if cur = c.numSensors then 0 else cur
        numSensors := c.numSensors
        reads := c.reads ++ [c.currentSensor] }
  else { c with sensorTicks := st }

/-- Iterate `stepCtl`. -/
def iterCtl : Nat → Ctl → Ctl
  | 0, c => c
  | n + 1, c => stepCtl (iterCtl n c)

/-! ## MIB object tree (lines 297-370)

The registry/lookup machinery (`miblistadd`, `mibsetcallback` and OID
resolution) lives in the uSNMP library, which is not part of this
repository; it is modelled from the spec.  The tree contents
(`initMibTree`) and the accessor callbacks (`getTemperature`,
`getSensorAddress`) are translated from the source. -/

/-- A value produced by resolving a MIB node. -/
inductive MibValue where
  | int (i : Int)
  | octets (bs : List Nat)
  | str (cs : List Char)
deriving DecidableEq

/-- Which callback `mibsetcallback` registered on a node (`none` when the
node keeps its static value). -/
inductive MibCallback where
  | none
  | uptime
  | temperature
  | sensorAddress
deriving DecidableEq

/-- One registered MIB node: its numeric OID, the static value stored at
registration time (`miblistadd` / `mibsetvalue`), and its callback. -/
structure MIBNode where
  oid : List Nat
  val : MibValue
  cb : MibCallback
deriving DecidableEq

/-- Numeric expansion of the uSNMP shorthand `B.` (mib-2). -/
def mib2Base : List Nat := [1, 3, 6, 1, 2, 1]

/-- Numeric expansion of `SENSOR_OID` = `P.56234.1.2.1` (line 63), with
`P.` the uSNMP shorthand for private enterprises. -/
def sensorOidBase : List Nat := [1, 3, 6, 1, 4, 1, 56234, 1, 2, 1]

/-- `sysDescr` (line 157). -/
def sysDescr : List Char := "Ed's ESP8266 thermometer".toList

/-- `sysLocation` (line 158). -/
def sysLocation : List Char := "Isle of Man".toList

/-- The OID of the temperature object of sensor `k` (1-based), registered
at line 333 as `SENSOR_OID.3.k`. -/
def sensorTempOid (k : Nat) : List Nat := sensorOidBase ++ [3, k]

/-- The OID of the bus-address object of sensor `k` (1-based), registered
at line 327 as `SENSOR_OID.2.k`. -/
def sensorAddrOid (k : Nat) : List Nat := sensorOidBase ++ [2, k]

/-- `initMibTree` (lines 297-339): the three system nodes, then for each
discovered sensor `c` an address node and a temperature node indexed
`c + 1`.  The temperature node's static value is 0 (`mibsetvalue`,
lines 335-336) before its callback is attached. -/
def initMibTree (numSensors : Nat) : List MIBNode :=
  [ ⟨mib2Base ++ [1, 1, 0], .str sysDescr, .none⟩,
    ⟨mib2Base ++ [1, 3, 0], .int 0, .uptime⟩,
    ⟨mib2Base ++ [1, 6, 0], .str sysLocation, .none⟩ ]
  ++ (List.range numSensors).flatMap (fun c =>
      [ ⟨sensorAddrOid (c + 1), .octets [], .sensorAddress⟩,
        ⟨sensorTempOid (c + 1), .int 0, .temperature⟩ ])

/-- The live data a callback can consult at resolution time: the sensor
store and the monotonic clock. -/
structure MibEnv where
  temps : List Int
  addrs : List (List Nat)
  nowMs : Nat

/-- `getTemperature` (lines 351-359): take the trailing OID component,
subtract one to recover the sensor index, and read the sensor store. -/
def getTemperature (env : MibEnv) (node : MIBNode) : Int :=
  env.temps.getD (node.oid.getLastD 0 - 1) 0

/-- `getSensorAddress` (lines 362-370): same index recovery, reading the
stored bus address instead. -/
def getSensorAddress (env : MibEnv) (node : MIBNode) : List Nat :=
  env.addrs.getD (node.oid.getLastD 0 - 1) []

/-- Modelled from the spec: OID resolution in the uSNMP library (not part
of this repository).  Per spec section 4.2, `resolve` finds the node
registered under the identifier and invokes its callback against the
current state, falling back to the static value; an unknown identifier
yields `none`.  `getUptime` (lines 342-348) reports `millis() / 10`. -/
def resolve (tree : List MIBNode) (oid : List Nat) (env : MibEnv) :
    Option MibValue :=
  (tree.find? (fun nd => nd.oid == oid)).map (fun nd =>
    match nd.cb with
    | .none => nd.val
    | .uptime => .int (env.nowMs / 10)
    | .temperature => .int (getTemperature env nd)
    | .sensorAddress => .octets (getSensorAddress env nd))

/-! ## EEPROM configuration (lines 79-86, 535-594) -/

/-- The `eepromType` record (lines 79-86).  `eepromSize` is the stored
record size and `dataValid` the validity sentinel. -/
structure eepromType where
  eepromSize : Int
  staSSID : List Char
  staPSK : List Char
  roCommunity : List Char
  dataValid : Nat
deriving DecidableEq

/-- `getConfig` (lines 535-572): `stored` is the record image read back
from EEPROM and `sz` the value of `sizeof(eepromData)`.  The record is kept
only when both the stored size and the sentinel match (line 557); otherwise
every configuration field is replaced by its compiled-in default
(lines 566-570). -/
def getConfig (sz : Int) (stored : eepromType) : eepromType :=
  if stored.eepromSize = sz ∧ stored.dataValid = EEPROM_VALID then stored
  else
    { eepromSize := sz
      staSSID := DEFAULT_SSID
      staPSK := DEFAULT_PSK
      roCommunity := RO_COMMUNITY
      dataValid := EEPROM_VALID }

/-! ## HTTP line readers (lines 827-891 and 1006-1056) -/

/-- Modulus of `unsigned long int` on the ESP8266 (32 bits). -/
def U32_MOD : Nat := 4294967296

/-- Wrap-around 32-bit subtraction, as C computes `a - b` on
`unsigned long int` operands. -/
def u32sub (a b : Nat) : Nat :=
  (a % U32_MOD + (U32_MOD - b % U32_MOD)) % U32_MOD

/-- The idle test of the configuration-mode reader, line 880:
`ms - millis() > 2000`, with `ms` the time of the last received byte and
`now` the current `millis()` value. -/
def webServerIdleExpired (ms now : Nat) : Bool :=
  2000 < u32sub ms now

/-- The idle test of the status-page reader, line 1047:
`millis() - ms > 2000`. -/
def statusIdleExpired (ms now : Nat) : Bool :=
  2000 < u32sub now ms

/-- The buffer-write positions performed by the byte-accumulation loop of
both readers (lines 853-876 and 1021-1043) on the given byte stream, with
`p` the current offset of `urlPtr` into `httpRequest`: a newline writes the
terminating NUL at the current offset and ends the line, a carriage return
is dropped, and any other byte is written at the current offset, which is
then incremented — with no bound check against the buffer capacity. -/
def bufWrites : List Char → Nat → List Nat
  | [], _ => []
  | c :: rest, p =>
    if c = '\n' then [p]
    else if c = '\r' then bufWrites rest p
    else p :: bufWrites rest (p + 1)

/-- Capacity of the `httpRequest` buffer (line 164: `char httpRequest[255]`). -/
def HTTP_REQUEST_CAP : Nat := 255

/-! ## Configuration-page request handling (lines 168-183, 698-824) -/

/-- One pass of `strtok`-style tokenisation: split on the delimiters
accepted by `p`, discarding empty tokens, as `strtok` does. -/
def strtokAux (p : Char → Bool) : List Char → List Char → List (List Char)
  | [], acc => if acc.isEmpty then [] else [acc.reverse]
  | c :: rest, acc =>
    if p c then
      if acc.isEmpty then strtokAux p rest []
      else acc.reverse :: strtokAux p rest []
    else strtokAux p rest (c :: acc)

/-- All tokens of `cs` under delimiter set `p`. -/
def strtokAll (p : Char → Bool) (cs : List Char) : List (List Char) :=
  strtokAux p cs []

/-- The delimiter set `"?& "` used by `httpHandleGetRequest` (line 797). -/
def isUrlDelim (c : Char) : Bool := c = '?' || c = '&' || c = ' '

/-- `httpSetSsid` (lines 710-713). -/
def httpSetSsid (ssid : List Char) (cfg : eepromType) : eepromType :=
  { cfg with staSSID := ssid }

/-- `httpSetPassword` (lines 716-719). -/
def httpSetPassword (password : List Char) (cfg : eepromType) : eepromType :=
  { cfg with staPSK := password }

/-- `httpSetRoCommunity` (lines 722-725). -/
def httpSetRoCommunity (community : List Char) (cfg : eepromType) :
    eepromType :=
  { cfg with roCommunity := community }

/-- The `httpParamHandlers` table (lines 177-183). -/
def httpParamHandlers :
    List (List Char × (List Char → eepromType → eepromType)) :=
  [ ("ssid".toList, httpSetSsid),
    ("password".toList, httpSetPassword),
    ("community".toList, httpSetRoCommunity) ]

/-- `httpParseParam` (lines 728-751): linear search of the handler table by
parameter name; an unmatched name is logged and ignored. -/
def httpParseParam (paramName paramValue : List Char) (cfg : eepromType) :
    eepromType :=
  match httpParamHandlers.find? (fun h => h.1 == paramName) with
  | some h => h.2 paramValue cfg
  | none => cfg

/-- One iteration of the loop in `httpSaveConfiguration` (lines 763-775):
split `httpParams[c]` on `=` into name and value and apply the matching
handler. -/
def saveCfgStep (cfg : eepromType) (param : List Char) : eepromType :=
  let toks := strtokAll (fun c => c = '=') param
  httpParseParam (toks.getD 0 []) (toks.getD 1 []) cfg

/-- `httpSaveConfiguration` (lines 754-780): process the parameter tokens
at positions 1 to 3 of the tokenised request and then call `saveConfig`;
the boolean records that whole-record persistence was triggered. -/
def httpSaveConfiguration (params : List (List Char)) (cfg : eepromType) :
    eepromType × Bool :=
  (((params.drop 1).take 3).foldl saveCfgStep cfg, true)

/-- `httpResetConfiguration` (lines 698-707): reload the three default
fields in memory without persisting. -/
def httpResetConfiguration (cfg : eepromType) : eepromType :=
  { cfg with staSSID := DEFAULT_SSID, staPSK := DEFAULT_PSK,
             roCommunity := RO_COMMUNITY }

/-- The pages of the `getRequests` table (lines 168-174). -/
inductive ConfigPage where
  | resetPage
  | configPage
  | rootPage
deriving DecidableEq

/-- The `getRequests` table (lines 168-174), in source order. -/
def getRequests : List (List Char × ConfigPage) :=
  [ ("/reset.html".toList, .resetPage),
    ("/config.html".toList, .configPage),
    ("/".toList, .rootPage) ]

/-- `httpHandleGetRequest` (lines 789-824): tokenise the URL on `?`, `&`
and space, match the first token against the page table (first match wins,
no match answers 404 and leaves the store alone), and dispatch.  Returns
the updated configuration store and whether persistence was triggered. -/
def httpHandleGetRequest (url : List Char) (cfg : eepromType) :
    eepromType × Bool :=
  let params := strtokAll isUrlDelim url
  match getRequests.find? (fun r => r.1 == params.getD 0 []) with
  | some r =>
      match r.2 with
      | .resetPage => (httpResetConfiguration cfg, false)
      | .configPage => httpSaveConfiguration params cfg
      | .rootPage => (cfg, false)
  | none => (cfg, false)

/-- Dispatch of a complete request line by the configuration-mode reader
(lines 854-868): only a line starting with `GET` is handled, and the URL
starts at offset 4 of the buffer. -/
def handleRequestLine (line : List Char) (cfg : eepromType) :
    eepromType × Bool :=
  if line.take 3 = "GET".toList then httpHandleGetRequest (line.drop 4) cfg
  else (cfg, false)

/-! ## Helper lemmas -/

/-- The control components of one scheduler tick do not depend on the
driver reading. -/
theorem ctl_processSensors (t : ℚ) (s : SchedState) :
    ctl (processSensors t s) = stepCtl (ctl s) := by
  unfold processSensors stepCtl ctl
  by_cases h1 : s.sensorTicks - 1 = 0 <;>
    by_cases h2 : s.numSensors = 0 <;>
      by_cases h3 : t = DEVICE_DISCONNECTED_C <;>
        by_cases h4 : s.currentSensor + 1 = s.numSensors <;>
          simp [h1, h2, h3, h4]

/-- Simulation: the control components of a run are computed by `iterCtl`. -/
theorem ctl_run (f : Nat → ℚ) (n : Nat) (s : SchedState) :
    ctl (run f n s) = iterCtl n (ctl s) := by
  induction n with
  | zero => rfl
  | succ n ih => simp [run, iterCtl, ctl_processSensors, ih]

/-- C1: starting from a freshly initialised scheduler with N sensors
(0 ≤ N ≤ 4), after N complete scheduling cycles of `processSensors` —
that is, N · SENSOR_TICKS ticks — the read log is exactly 0, 1, ..., N-1
(each sensor read exactly once, in order) and the round-robin cursor has
returned to 0, whatever the driver returned for each read. -/
theorem scheduler_roundRobin_cycle (N : Nat) (hN : N ≤ 4) (f : Nat → ℚ) :
    (run f (N * SENSOR_TICKS) (initSensors N)).reads = List.range N ∧
    (run f (N * SENSOR_TICKS) (initSensors N)).currentSensor = 0 := by
  have hr : (run f (N * SENSOR_TICKS) (initSensors N)).reads
      = (iterCtl (N * SENSOR_TICKS) (ctl (initSensors N))).reads := by
    rw [show (run f (N * SENSOR_TICKS) (initSensors N)).reads
        = (ctl (run f (N * SENSOR_TICKS) (initSensors N))).reads from rfl,
      ctl_run]
  have hc : (run f (N * SENSOR_TICKS) (initSensors N)).currentSensor
      = (iterCtl (N * SENSOR_TICKS) (ctl (initSensors N))).currentSensor := by
    rw [show (run f (N * SENSOR_TICKS) (initSensors N)).currentSensor
        = (ctl (run f (N * SENSOR_TICKS) (initSensors N))).currentSensor from rfl,
      ctl_run]
  rw [hr, hc]
  interval_cases N <;> exact ⟨by decide, by decide⟩

/-- Closed witness for C1 at N = 2: two full cycles read sensors 0 and 1
once each and return the cursor to 0. -/
theorem scheduler_roundRobin_cycle_witness :
    (run (fun _ => 0) (2 * SENSOR_TICKS) (initSensors 2)).reads = List.range 2 ∧
    (run (fun _ => 0) (2 * SENSOR_TICKS) (initSensors 2)).currentSensor = 0 :=
  scheduler_roundRobin_cycle 2 (by decide) (fun _ => 0)

/-- C2: at a cycle boundary (countdown about to expire) with at least one
sensor, a failing read — the driver returning the disconnected sentinel —
leaves every stored temperature exactly as it was (any slot holding V still
holds V), emits the error diagnostic, and advances the round-robin cursor
to the next sensor with wrap-around. -/
theorem failedRead_preserves_store (s : SchedState) (i : Nat) (V : Int)
    (hb : s.sensorTicks = 1) (hn : s.numSensors ≠ 0)
    (hV : s.temps[i]? = some V) :
    (processSensors DEVICE_DISCONNECTED_C s).temps[i]? = some V ∧
    (processSensors DEVICE_DISCONNECTED_C s).temps = s.temps ∧
    (processSensors DEVICE_DISCONNECTED_C s).errDiags = s.errDiags + 1 ∧
    (processSensors DEVICE_DISCONNECTED_C s).currentSensor
      = (if s.currentSensor + 1 = s.numSensors then 0
         else s.currentSensor + 1) := by
  unfold processSensors
  by_cases h4 : s.currentSensor + 1 = s.numSensors <;>
    simp [hb, hn, h4, hV]

/-- Closed witness for C2: a concrete boundary state with two sensors whose
slot 0 holds 57; the failing read keeps it at 57. -/
theorem failedRead_preserves_store_witness :
    (processSensors DEVICE_DISCONNECTED_C
        ⟨[57, 62, 3333, 4444], 2, 0, 1, 0, 0, [], [], 0, 0⟩).temps[0]?
      = some 57 ∧
    (processSensors DEVICE_DISCONNECTED_C
        ⟨[57, 62, 3333, 4444], 2, 0, 1, 0, 0, [], [], 0, 0⟩).temps
      = [57, 62, 3333, 4444] ∧
    (processSensors DEVICE_DISCONNECTED_C
        ⟨[57, 62, 3333, 4444], 2, 0, 1, 0, 0, [], [], 0, 0⟩).errDiags = 0 + 1 ∧
    (processSensors DEVICE_DISCONNECTED_C
        ⟨[57, 62, 3333, 4444], 2, 0, 1, 0, 0, [], [], 0, 0⟩).currentSensor
      = (if 0 + 1 = 2 then 0 else 0 + 1) :=
  failedRead_preserves_store ⟨[57, 62, 3333, 4444], 2, 0, 1, 0, 0, [], [], 0, 0⟩
    0 57 rfl (by decide) (by decide)

/-- C9 (amended): when the countdown expires with zero sensors, the
scheduler emits the no-sensor diagnostic and leaves the round-robin cursor
and the sensor store (and the read logs) unchanged — but the activity
indication IS triggered on such a cycle, because the source calls
`ledOn(LED_TICKS)` (line 490) before the zero-sensor check (line 492). -/
theorem zeroSensors_cycle (s : SchedState) (t : ℚ)
    (hb : s.sensorTicks = 1) (h0 : s.numSensors = 0) :
    (processSensors t s).currentSensor = s.currentSensor ∧
    (processSensors t s).temps = s.temps ∧
    (processSensors t s).reads = s.reads ∧
    (processSensors t s).succReads = s.succReads ∧
    (processSensors t s).noSensorDiags = s.noSensorDiags + 1 ∧
    (processSensors t s).ledOnCount = s.ledOnCount + 1 ∧
    (processSensors t s).ledTicks = LED_TICKS := by
  unfold processSensors
  simp [hb, h0]

/-- Closed witness for C9's amended statement at a concrete zero-sensor
boundary state. -/
theorem zeroSensors_cycle_witness :
    (processSensors 0 ⟨[1111, 2222, 3333, 4444], 0, 0, 1, 0, 0, [], [], 0, 0⟩).currentSensor = 0 ∧
    (processSensors 0 ⟨[1111, 2222, 3333, 4444], 0, 0, 1, 0, 0, [], [], 0, 0⟩).temps = [1111, 2222, 3333, 4444] ∧
    (processSensors 0 ⟨[1111, 2222, 3333, 4444], 0, 0, 1, 0, 0, [], [], 0, 0⟩).reads = [] ∧
    (processSensors 0 ⟨[1111, 2222, 3333, 4444], 0, 0, 1, 0, 0, [], [], 0, 0⟩).succReads = [] ∧
    (processSensors 0 ⟨[1111, 2222, 3333, 4444], 0, 0, 1, 0, 0, [], [], 0, 0⟩).noSensorDiags = 0 + 1 ∧
    (processSensors 0 ⟨[1111, 2222, 3333, 4444], 0, 0, 1, 0, 0, [], [], 0, 0⟩).ledOnCount = 0 + 1 ∧
    (processSensors 0 ⟨[1111, 2222, 3333, 4444], 0, 0, 1, 0, 0, [], [], 0, 0⟩).ledTicks = LED_TICKS :=
  zeroSensors_cycle ⟨[1111, 2222, 3333, 4444], 0, 0, 1, 0, 0, [], [], 0, 0⟩ 0
    rfl rfl

/-- Counterexample to C9 as stated: on a zero-sensor cycle boundary the
activity indication IS triggered — the LED-on counter increments and the
LED timer is armed — contradicting the claim that it is not triggered on
such a cycle. -/
theorem zeroSensors_cycle_counterexample :
    ¬ ((processSensors 0
          ⟨[1111, 2222, 3333, 4444], 0, 0, 1, 0, 0, [], [], 0, 0⟩).ledOnCount
        = 0 ∧
       (processSensors 0
          ⟨[1111, 2222, 3333, 4444], 0, 0, 1, 0, 0, [], [], 0, 0⟩).ledTicks
        = 0) := by
  decide

/-- C7 (amended): a successful read at a cycle boundary stores
`(int)(rawCelsius * 10)` — the raw reading scaled to tenths of a degree and
truncated toward zero by the C cast — in the current sensor's slot. -/
theorem successRead_stores_truncated (s : SchedState) (t : ℚ)
    (hb : s.sensorTicks = 1) (hn : s.numSensors ≠ 0)
    (ht : t ≠ DEVICE_DISCONNECTED_C) (hc : s.currentSensor < s.temps.length) :
    (processSensors t s).temps[s.currentSensor]? = some (cTrunc (t * 10)) := by
  unfold processSensors
  by_cases h4 : s.currentSensor + 1 = s.numSensors <;>
    simp [hb, hn, ht, h4, List.getElem?_set_self, hc]

/-- Closed witness for C7's amended statement: a boundary state with one
sensor and a successful reading of 3/4 degrees C. -/
theorem successRead_stores_truncated_witness :
    (processSensors (mkRat 3 4)
        ⟨[1111, 2222, 3333, 4444], 1, 0, 1, 0, 0, [], [], 0, 0⟩).temps[0]?
      = some (cTrunc (mkRat 3 4 * 10)) :=
  successRead_stores_truncated
    ⟨[1111, 2222, 3333, 4444], 1, 0, 1, 0, 0, [], [], 0, 0⟩ (mkRat 3 4)
    rfl (by decide) (by decide) (by decide)

/-- Counterexample to C7 as stated: for the successful reading
rawCelsius = 3/4 degrees C, the value the code stores is
(int)(0.75 * 10) = 7, not round(0.75 * 10) = 8: the stored value is the
truncation toward zero, not the nearest integer. -/
theorem successRead_stores_truncated_counterexample :
    (processSensors (mkRat 3 4)
        ⟨[1111, 2222, 3333, 4444], 1, 0, 1, 0, 0, [], [], 0, 0⟩).temps[0]?
      ≠ some (round ((mkRat 3 4 : ℚ) * 10)) := by
  have hm : (mkRat 3 4 : ℚ) * 10 = mkRat 15 2 := by
    rw [Rat.mkRat_eq_div, Rat.mkRat_eq_div]; norm_num
  have h1 : (processSensors (mkRat 3 4)
      ⟨[1111, 2222, 3333, 4444], 1, 0, 1, 0, 0, [], [], 0, 0⟩).temps[0]?
      = some (cTrunc (mkRat 3 4 * 10)) := by rfl
  have h2 : cTrunc (mkRat 3 4 * 10) = 7 := by rw [hm]; decide
  have h3 : round ((mkRat 3 4 : ℚ) * 10) = 8 := by
    rw [hm, Rat.mkRat_eq_div, round_eq]; norm_num
  rw [h1, h2, h3]
  decide

/-- Resolving the temperature OID of sensor k reads slot k-1 of the sensor
store supplied at resolution time, for every store contents. -/
theorem resolve_temp_eq (N k : Nat) (h1 : 1 ≤ k) (h2 : k ≤ N) (hN : N ≤ 4)
    (env : MibEnv) :
    resolve (initMibTree N) (sensorTempOid k) env
      = some (.int (env.temps.getD (k - 1) 0)) := by
  interval_cases N <;> interval_cases k <;> rfl

/-- C3: for every valid k in [1, N], resolving the indexed temperature
identifier `baseOid.3.k` recovers the 0-based sensor index k-1 from the
trailing identifier component and returns whatever the sensor store holds
for that index at the time of resolution — a live read of the store, for
arbitrary store contents, not a value captured when the node was
registered. -/
theorem resolve_temperature_live (N k : Nat) (h1 : 1 ≤ k) (h2 : k ≤ N)
    (hN : N ≤ 4) (temps : List Int) (addrs : List (List Nat)) (now : Nat) :
    resolve (initMibTree N) (sensorTempOid k) ⟨temps, addrs, now⟩
      = some (.int (temps.getD (k - 1) 0)) :=
  resolve_temp_eq N k h1 h2 hN ⟨temps, addrs, now⟩

/-- Closed witness for C3 with two sensors, resolving sensor 1 against a
store holding 77 in slot 0. -/
theorem resolve_temperature_live_witness :
    resolve (initMibTree 2) (sensorTempOid 1) ⟨[77, 88, 3333, 4444], [], 0⟩
      = some (.int ([77, 88, 3333, 4444].getD 0 0)) :=
  resolve_temperature_live 2 1 (by decide) (by decide) (by decide)
    [77, 88, 3333, 4444] [] 0

/-- If a tick's outcome does not log a successful read of sensor slot k,
that tick left slot k of the store unchanged (and no earlier success of k
was logged either, since the log only grows). -/
theorem tick_untouched_slot (t : ℚ) (s : SchedState) (k : Nat)
    (h : k ∉ (processSensors t s).succReads) :
    (processSensors t s).temps[k]? = s.temps[k]? ∧ k ∉ s.succReads := by
  unfold processSensors at h ⊢
  by_cases h1 : s.sensorTicks - 1 = 0 <;>
    by_cases h2 : s.numSensors = 0 <;>
      by_cases h3 : t = DEVICE_DISCONNECTED_C <;>
        by_cases h4 : s.currentSensor + 1 = s.numSensors <;>
          simp [h1, h2, h3, h4] at h ⊢ <;>
          first
          | exact h
          | · obtain ⟨hmem, hne⟩ := h
              exact ⟨List.getElem?_set_ne (fun he => hne he.symm), hmem⟩

/-- Across a whole run: while no successful read of sensor slot k has been
logged, slot k of the store still holds its starting value. -/
theorem run_untouched_slot (f : Nat → ℚ) (n : Nat) (s : SchedState) (k : Nat)
    (h : k ∉ (run f n s).succReads) :
    (run f n s).temps[k]? = s.temps[k]? ∧ k ∉ s.succReads := by
  induction n with
  | zero => exact ⟨rfl, h⟩
  | succ n ih =>
      have h' : k ∉ (processSensors (f n) (run f n s)).succReads := h
      have step := tick_untouched_slot (f n) (run f n s) k h'
      have rest := ih step.2
      exact ⟨by rw [show (run f (n + 1) s) = processSensors (f n) (run f n s)
          from rfl, step.1, rest.1], rest.2⟩

/-- C10: with N sensors discovered (so the temperature node of every k in
[1, N] is registered) and k at most 4, as long as the scheduler has logged
no successful read of sensor k, resolving the indexed temperature
identifier still returns the compiled-in placeholder for that slot —
1111 times k, i.e. 1111, 2222, 3333 or 4444 — not zero and not the
disconnected sentinel. -/
theorem resolve_placeholder_until_success (f : Nat → ℚ) (n : Nat)
    (N k : Nat) (h1 : 1 ≤ k) (h2 : k ≤ N) (hN : N ≤ 4)
    (addrs : List (List Nat)) (now : Nat)
    (hns : (k - 1) ∉ (run f n (initSensors N)).succReads) :
    resolve (initMibTree N) (sensorTempOid k)
        ⟨(run f n (initSensors N)).temps, addrs, now⟩
      = some (.int (1111 * k)) := by
  rw [resolve_temp_eq N k h1 h2 hN]
  have hrun := run_untouched_slot f n (initSensors N) (k - 1) hns
  have hgd : (run f n (initSensors N)).temps.getD (k - 1) 0
      = ((run f n (initSensors N)).temps[k - 1]?).getD 0 := by
    simp [List.getD]
  rw [hgd, hrun.1]
  have hk4 : k ≤ 4 := le_trans h2 hN
  interval_cases k <;> rfl

/-- Closed witness for C10: two sensors, 100 ticks during which every read
returns the disconnected sentinel; sensor 1 still resolves to 1111. -/
theorem resolve_placeholder_until_success_witness :
    resolve (initMibTree 2) (sensorTempOid 1)
        ⟨(run (fun _ => DEVICE_DISCONNECTED_C) 100 (initSensors 2)).temps,
         [], 0⟩
      = some (.int (1111 * 1)) :=
  resolve_placeholder_until_success (fun _ => DEVICE_DISCONNECTED_C) 100 2 1
    (by decide) (by decide) (by decide) [] 0 (by decide)

/-- C4: loading a persisted configuration record keeps the stored
identity/secret/community exactly when the stored size equals the current
record size AND the validity marker equals the expected sentinel; any
record failing either check yields the compiled-in defaults for all three
fields — never a mix of stored and default fields. -/
theorem getConfig_valid_or_defaults (sz : Int) (stored : eepromType) :
    ((stored.eepromSize = sz ∧ stored.dataValid = EEPROM_VALID) →
      getConfig sz stored = stored) ∧
    (¬ (stored.eepromSize = sz ∧ stored.dataValid = EEPROM_VALID) →
      (getConfig sz stored).staSSID = DEFAULT_SSID ∧
      (getConfig sz stored).staPSK = DEFAULT_PSK ∧
      (getConfig sz stored).roCommunity = RO_COMMUNITY) := by
  by_cases h : stored.eepromSize = sz ∧ stored.dataValid = EEPROM_VALID <;>
    simp [getConfig, h]

/-- Closed witness for C4: a record with the right size and sentinel is
kept verbatim; one with a corrupted sentinel is replaced wholesale by the
defaults. -/
theorem getConfig_valid_or_defaults_witness :
    getConfig 200 ⟨200, "x".toList, "y".toList, "z".toList, EEPROM_VALID⟩
      = ⟨200, "x".toList, "y".toList, "z".toList, EEPROM_VALID⟩ ∧
    ((getConfig 200 ⟨200, "x".toList, "y".toList, "z".toList, 0⟩).staSSID
        = DEFAULT_SSID ∧
     (getConfig 200 ⟨200, "x".toList, "y".toList, "z".toList, 0⟩).staPSK
        = DEFAULT_PSK ∧
     (getConfig 200 ⟨200, "x".toList, "y".toList, "z".toList, 0⟩).roCommunity
        = RO_COMMUNITY) :=
  ⟨(getConfig_valid_or_defaults 200
      ⟨200, "x".toList, "y".toList, "z".toList, EEPROM_VALID⟩).1 (by decide),
   (getConfig_valid_or_defaults 200
      ⟨200, "x".toList, "y".toList, "z".toList, 0⟩).2 (by decide)⟩

/-- C5 evaluated on the code: the configuration-mode reader's idle test
(line 880, operands reversed) already reports expiry one millisecond after
the last byte — long before the 2-second idle duration — while the
status-page reader's test (line 1047) correctly stays quiet at 1 ms and up
to 2000 ms of idleness and fires only beyond it.  The two readers'
timeout logic therefore differs, contradicting the claimed behaviour. -/
theorem idleTimeout_divergence :
    webServerIdleExpired 1000 1001 = true ∧
    statusIdleExpired 1000 1001 = false ∧
    statusIdleExpired 1000 3000 = false ∧
    statusIdleExpired 1000 3001 = true ∧
    webServerIdleExpired 1000 1001 ≠ statusIdleExpired 1000 1001 := by
  decide

/-- C6 evaluated on the code: feeding a request line of 300 non-newline
bytes makes the byte-accumulation loop write at offsets at and beyond the
255-byte capacity of the line buffer — positions 255 through 300 are
written, the last being the terminating NUL — instead of truncating at the
capacity. -/
theorem lineBuffer_overflow :
    ((bufWrites (List.replicate 300 'a' ++ ['\n']) 0).any
        (fun p => HTTP_REQUEST_CAP ≤ p)) = true ∧
    (bufWrites (List.replicate 300 'a' ++ ['\n']) 0).contains 300 = true := by
  decide

/-- C8: dispatching the request line retrieving /config.html with query
parameters ssid=MyNet, password=Secret and community=public sets the
in-memory configuration store's network identity to MyNet, its network
secret to Secret and its read-only community to public, and triggers the
whole-record save to EEPROM — from any prior store contents. -/
theorem configSave_updates_store (cfg : eepromType) :
    handleRequestLine
        ("GET /config.html?ssid=MyNet&password=Secret&community=public HTTP/1.1".toList)
        cfg
      = ({ cfg with staSSID := "MyNet".toList, staPSK := "Secret".toList,
                    roCommunity := "public".toList }, true) := by
  rfl
